import Mathlib

/-!
Verification of the lead-management backend (telecalling CRM).

Shallow embedding of the controllers in `src/controllers` and the Mongoose
models in `src/models`.  MongoDB object ids are modelled as `Nat`;
timestamps are modelled at calendar-day granularity as `Int` day numbers
(the trend aggregation groups by `%Y-%m-%d` strings, i.e. by day).
The store (MongoDB) is modelled as explicit lists of records; each `await`ed
store write that can fail is driven by a boolean fail/succeed oracle so that
partial-failure behaviour of `createCall` is expressible.
-/

/-- `role` field of a User: the auth middleware resolves every request to one
of these two roles. -/
inductive Role where
  | admin
  | telecaller
deriving DecidableEq, Repr, Fintype

/-- `status` enum of `LeadSchema` (src/models/Lead.js). -/
inductive LeadStatus where
  | new
  | contacted
  | qualified
  | proposal
  | converted
  | lost
deriving DecidableEq, Repr, Fintype

/-- `source` enum of `LeadSchema`. -/
inductive LeadSource where
  | website
  | referral
  | social
  | direct
  | other
deriving DecidableEq, Repr, Fintype

/-- `status` enum of `CallSchema` (src/models/Call.js). -/
inductive CallStatus where
  | connected
  | not_connected
deriving DecidableEq, Repr, Fintype

/-- `connectedResponse` enum of `CallSchema`. -/
inductive ConnectedResponse where
  | discussed
  | callback
  | interested
deriving DecidableEq, Repr, Fintype

/-- `notConnectedReason` enum of `CallSchema`. -/
inductive NotConnectedReason where
  | busy
  | rnr
  | switched_off
deriving DecidableEq, Repr, Fintype

/-- A persisted Lead document (src/models/Lead.js). -/
structure Lead where
  id : Nat
  name : String
  company : Option String
  phone : String
  email : Option String
  address : String
  source : LeadSource
  status : LeadStatus
  notes : Option String
  createdBy : Nat
  lastModifiedBy : Nat
  createdAt : Int
deriving DecidableEq, Repr

/-- A persisted Call document (src/models/Call.js).  `createdAt` is the
creation timestamp at day granularity. -/
structure CallRec where
  id : Nat
  lead : Nat
  user : Nat
  status : CallStatus
  duration : Nat
  connectedResponse : Option ConnectedResponse
  notConnectedReason : Option NotConnectedReason
  notes : Option String
  createdAt : Int
deriving DecidableEq, Repr

/-- A persisted User document (only the fields the claims touch). -/
structure UserRec where
  id : Nat
  role : Role
deriving DecidableEq, Repr

/-- The resolved `req.user` placed on the request by the `protect`
middleware. -/
structure UserCtx where
  id : Nat
  role : Role
deriving DecidableEq, Repr

/-- The persistent store: the Lead, Call and User collections. -/
structure St where
  leads : List Lead
  calls : List CallRec
  users : List UserRec
deriving DecidableEq, Repr

/-- JavaScript `x || d` on an optional numeric request parameter
(`parseInt(req.query.p, 10) || d`): absent or zero falls back to `d`. -/
def jsNumOr (x : Option Nat) (d : Nat) : Nat :=
  match x with
  | none => d
  | some n => if n = 0 then d else n

/-- Request body of `POST /api/calls` (`createCall`). -/
structure CreateCallReq where
  lead : Nat
  status : CallStatus
  duration : Option Nat
  connectedResponse : Option ConnectedResponse
  notConnectedReason : Option NotConnectedReason
  notes : Option String
deriving DecidableEq, Repr

/-- Possible outcomes of `createCall`, mirroring the HTTP responses:
404 Lead not found, 403 not authorized, 500 server error (a thrown await
caught by the catch block), 201 created with the call document. -/
inductive CreateCallRes where
  | notFound
  | forbidden
  | serverError
  | created (c : CallRec)
deriving DecidableEq, Repr

/-- Fail/succeed oracle for the three `await`ed store writes of
`createCall`: `Call.create`, the `Lead.findByIdAndUpdate` on the
`lead.status === 'new'` path, and the `lead.save()` in the connected
branch.  `true` means the write succeeds. -/
structure FailOracle where
  callCreateOk : Bool
  leadUpdate1Ok : Bool
  leadSaveOk : Bool
deriving DecidableEq, Repr

/-- The oracle under which every store write succeeds. -/
def allOk : FailOracle := ⟨true, true, true⟩

/-- The `callData` object built by `createCall` (lines 27–39): conditional
fields are attached only when the status matches and the field is present
(`if (status === 'connected' && connectedResponse) ... else if
(status === 'not_connected' && notConnectedReason) ...`). -/
def buildCallData (u : UserCtx) (req : CreateCallReq) (cid : Nat) (now : Int) :
    CallRec :=
  let base : CallRec :=
    { id := cid, lead := req.lead, user := u.id, status := req.status,
      duration := req.duration.getD 0, connectedResponse := none,
      notConnectedReason := none, notes := req.notes, createdAt := now }
  if req.status = .connected ∧ req.connectedResponse.isSome then
    { base with connectedResponse := req.connectedResponse }
  else if req.status = .not_connected ∧ req.notConnectedReason.isSome then
    { base with notConnectedReason := req.notConnectedReason }
  else base

/-- `Lead.findByIdAndUpdate(leadId, { status: st })`: sets only the status
of the lead with the given id. -/
def setLeadStatus (s : St) (leadId : Nat) (st : LeadStatus) : St :=
  { s with leads := s.leads.map fun l =>
      if l.id = leadId then { l with status := st } else l }

/-- `lead.save()`: replaces the stored document having the in-memory
document's id by the in-memory document. -/
def saveLead (s : St) (doc : Lead) : St :=
  { s with leads := s.leads.map fun l => if l.id = doc.id then doc else l }

/-- `createCall` (src/unnamed/part_000, lines 9–73).  Control flow:
resolve the lead (404 if absent); telecaller ownership check (403);
`Call.create(callData)`; if the lead was `new`, `findByIdAndUpdate` it to
`contacted`; if the call was connected, recompute a status from the stale
in-memory lead and `save()` the whole document with `lastModifiedBy` when it
differs.  A failing `await` reaches the catch block: 500 with all effects
performed so far kept. -/
def createCall (u : UserCtx) (req : CreateCallReq) (fo : FailOracle)
    (cid : Nat) (now : Int) (s : St) : CreateCallRes × St :=
  match s.leads.find? (fun l => decide (l.id = req.lead)) with
  | none => (.notFound, s)
  | some lead =>
    if u.role = .telecaller ∧ lead.createdBy ≠ u.id then (.forbidden, s)
    else if fo.callCreateOk = false then (.serverError, s)
    else
      let call := buildCallData u req cid now
      let s1 : St := { s with calls := s.calls ++ [call] }
      if lead.status = .new ∧ fo.leadUpdate1Ok = false then (.serverError, s1)
      else
        let s2 := if lead.status = .new then setLeadStatus s1 req.lead .contacted else s1
        if req.status = .connected then
          let ns1 : LeadStatus := if lead.status = .new then .contacted else lead.status
          let newStatus : LeadStatus :=
            if req.connectedResponse = some .interested ∧
                (lead.status = .new ∨ lead.status = .contacted) then .qualified
            else ns1
          if newStatus ≠ lead.status then
            if fo.leadSaveOk = false then (.serverError, s2)
            else (.created call,
                  saveLead s2 { lead with status := newStatus, lastModifiedBy := u.id })
          else (.created call, s2)
        else (.created call, s2)

/-- The lead-status transition function realised by `createCall`
(lines 43–65): the composite effect of the `new → contacted` update and the
connected-branch recomputation on the persisted lead status. -/
def nextStatus (current : LeadStatus) (st : CallStatus)
    (cr : Option ConnectedResponse) : LeadStatus :=
  if st = .connected ∧ cr = some .interested ∧
      (current = .new ∨ current = .contacted) then .qualified
  else if current = .new then .contacted
  else current

/-- Rank of a status along the pipeline
`new → contacted → qualified → proposal → converted`, with `lost` terminal. -/
def stageRank : LeadStatus → Nat
  | .new => 0
  | .contacted => 1
  | .qualified => 2
  | .proposal => 3
  | .converted => 4
  | .lost => 5

/-- Query parameters of `GET /api/leads` (`getLeads`).  `page` and `limit`
are the parsed `parseInt(...)` values; the sort specification
`{ [sortField]: sortOrder }` is interpreted by the store (MongoDB, an
external collaborator), so it is carried as the resolved comparator `le`. -/
structure GetLeadsReq where
  status : Option LeadStatus
  source : Option LeadSource
  le : Lead → Lead → Bool
  page : Option Nat
  limit : Option Nat

/-- The Mongo query document built by `getLeads`
(src/controllers/leadController.js, lines 10–22): optional status and
source equality filters, plus `createdBy = req.user._id` when the caller is
a telecaller. -/
def leadsQuery (u : UserCtx) (req : GetLeadsReq) (l : Lead) : Bool :=
  (match req.status with | some st => decide (l.status = st) | none => true) &&
  (match req.source with | some so => decide (l.source = so) | none => true) &&
  (if u.role = .telecaller then decide (l.createdBy = u.id) else true)

/-- `getLeads` (leadController.js, lines 8–56): filter, sort, then paginate
with `skip = (page - 1) * limit` and `limit` (`page` and `limit` default to
1 and 100 through `parseInt(...) || d`).  Returns the `data` list of the
200 response. -/
def getLeads (u : UserCtx) (req : GetLeadsReq) (s : St) : List Lead :=
  let page := jsNumOr req.page 1
  let limit := jsNumOr req.limit 100
  let skip := (page - 1) * limit
  (((s.leads.filter (leadsQuery u req)).mergeSort req.le).drop skip).take limit

/-- Request body of `PUT /api/leads/:id` (`updateLead`); every Lead field
may be present or absent.  A present `lastModifiedBy` is irrelevant: the
controller spreads `req.body` first and then overwrites `lastModifiedBy`. -/
structure UpdateLeadBody where
  name : Option String
  company : Option String
  phone : Option String
  email : Option String
  address : Option String
  source : Option LeadSource
  status : Option LeadStatus
  notes : Option String
  createdBy : Option Nat
  lastModifiedBy : Option Nat
deriving DecidableEq, Repr

/-- `$set` semantics of `Lead.findByIdAndUpdate(id, updateData)`: each field
present in the update document replaces the stored field.  The Lead schema
declares no field immutable, so a present `createdBy` is applied like any
other field. -/
def applyLeadUpdate (b : UpdateLeadBody) (l : Lead) : Lead :=
  { l with
    name := b.name.getD l.name
    company := match b.company with | some c => some c | none => l.company
    phone := b.phone.getD l.phone
    email := match b.email with | some e => some e | none => l.email
    address := b.address.getD l.address
    source := b.source.getD l.source
    status := b.status.getD l.status
    notes := match b.notes with | some n => some n | none => l.notes
    createdBy := b.createdBy.getD l.createdBy
    lastModifiedBy := b.lastModifiedBy.getD l.lastModifiedBy }

/-- Outcomes of `updateLead`: 404, 403, or 200 with the updated document. -/
inductive UpdateLeadRes where
  | notFound
  | forbidden
  | ok (l : Lead)
deriving DecidableEq, Repr

/-- `updateLead` (leadController.js, lines 123–163): resolve the lead,
telecaller ownership check, then `findByIdAndUpdate` with
`{ ...req.body, lastModifiedBy: req.user._id }`. -/
def updateLead (u : UserCtx) (leadId : Nat) (b : UpdateLeadBody) (s : St) :
    UpdateLeadRes × St :=
  match s.leads.find? (fun l => decide (l.id = leadId)) with
  | none => (.notFound, s)
  | some lead =>
    if u.role = .telecaller ∧ lead.createdBy ≠ u.id then (.forbidden, s)
    else
      let updated := { applyLeadUpdate b lead with lastModifiedBy := u.id }
      (.ok updated,
       { s with leads := s.leads.map fun l => if l.id = leadId then
           { applyLeadUpdate b l with lastModifiedBy := u.id } else l })

/-- One entry of the daily-trend series returned by `getCallTrends`.
A store-grouped bucket carries its date under the aggregation key `_id`
and a synthesized zero bucket under `date`; the embedding uses the single
field `date` for that date key in both cases. -/
structure TrendBucket where
  date : Int
  count : Nat
  connected : Nat
deriving DecidableEq, Repr

/-- The scope filter of `getCallTrends`' `$match` stage: creation date in
`[startDate, endDate]` plus `user = req.user._id` for telecallers. -/
def trendMatch (u : UserCtx) (start today : Int) (c : CallRec) : Bool :=
  decide (start ≤ c.createdAt) && decide (c.createdAt ≤ today) &&
  (if u.role = .telecaller then decide (c.user = u.id) else true)

/-- The `$group` stage of `getCallTrends` followed by
`callTrends.find(item => item._id === dateStr)`: the aggregation contains a
group for a day exactly when some matching call was created that day, with
`count` the number of such calls and `connected` the number of them with
status `connected`. -/
def trendFound (matched : List CallRec) (d : Int) : Option TrendBucket :=
  let ms := matched.filter (fun c => decide (c.createdAt = d))
  if ms.isEmpty then none
  else some { date := d, count := ms.length,
              connected := (ms.filter (fun c => decide (c.status = .connected))).length }

/-- `getCallTrends` (src/unnamed/part_000, lines 132–175): `days` defaults
to 7 via `parseInt || 7`; `startDate = today - days + 1` (midnight); the
result loop pushes, for each of the `days` consecutive dates, the
aggregated bucket when one exists and a zero-valued
`{ date, count: 0, connected: 0 }` bucket otherwise. -/
def getCallTrends (u : UserCtx) (daysParam : Option Nat) (today : Int)
    (s : St) : List TrendBucket :=
  let days := jsNumOr daysParam 7
  let start : Int := today - days + 1
  let matched := s.calls.filter (trendMatch u start today)
  (List.range days).map fun (i : Nat) =>
    (trendFound matched (start + (i : Int))).getD
      { date := start + (i : Int), count := 0, connected := 0 }

/-- Rendering of a count of hundredths `n` as the fixed-two-decimals string
`"⌊n/100⌋.dd"` — the shape produced by JavaScript `Number.prototype.toFixed(2)`
on a non-negative value. -/
def fmtHundredths (n : Nat) : String :=
  toString (n / 100) ++ "." ++
  (if n % 100 < 10 then "0" ++ toString (n % 100) else toString (n % 100))

/-- `x.toFixed(2)` for a non-negative numeric value, modelled over exact
rationals: the integer count of hundredths nearest to `x` (ties toward the
larger, per ECMA-262 `Number.prototype.toFixed`), rendered with two
decimals. -/
def toFixed2 (x : ℚ) : String := fmtHundredths (⌊x * 100 + 1 / 2⌋.toNat)

/-- The `data` object of the `getDashboardStats` 200 response. -/
structure DashStats where
  totalLeads : Nat
  totalCalls : Nat
  connectedCalls : Nat
  connectionRate : String
  totalTelecallers : Nat
deriving DecidableEq, Repr

/-- `getDashboardStats` (src/unnamed/part_000, lines 180–214): role-scoped
counts of leads and calls, the count of telecallers, and
`connectionRate = totalCalls ? ((connectedCalls/totalCalls)*100).toFixed(2)+'%' : '0%'`. -/
def getDashboardStats (u : UserCtx) (s : St) : DashStats :=
  let leadQ : Lead → Bool := fun l =>
    if u.role = .telecaller then decide (l.createdBy = u.id) else true
  let callQ : CallRec → Bool := fun c =>
    if u.role = .telecaller then decide (c.user = u.id) else true
  let totalLeads := (s.leads.filter leadQ).length
  let totalCalls := (s.calls.filter callQ).length
  let connectedCalls :=
    (s.calls.filter (fun c => callQ c && decide (c.status = .connected))).length
  let totalTelecallers := (s.users.filter (fun v => decide (v.role = .telecaller))).length
  { totalLeads := totalLeads, totalCalls := totalCalls,
    connectedCalls := connectedCalls,
    connectionRate :=
      if totalCalls ≠ 0 then
        toFixed2 ((connectedCalls : ℚ) / (totalCalls : ℚ) * 100) ++ "%"
      else "0%",
    totalTelecallers := totalTelecallers }

/-- A concrete Lead document used to evaluate the operations on sample
stores. -/
def sampleLead (st : LeadStatus) (creator : Nat) : Lead :=
  { id := 1, name := "Asha", company := none, phone := "555", email := none,
    address := "HQ", source := .website, status := st, notes := none,
    createdBy := creator, lastModifiedBy := creator, createdAt := 0 }

/-- A store holding one sample lead and nothing else. -/
def sampleStore (st : LeadStatus) (creator : Nat) : St :=
  { leads := [sampleLead st creator], calls := [], users := [] }

/-- A sample not-connected call request against lead 1. -/
def notConnectedReq : CreateCallReq :=
  { lead := 1, status := .not_connected, duration := none,
    connectedResponse := none, notConnectedReason := some .busy, notes := none }

/-- A sample connected-and-interested call request against lead 1. -/
def interestedReq : CreateCallReq :=
  { lead := 1, status := .connected, duration := some 60,
    connectedResponse := some .interested, notConnectedReason := none,
    notes := none }

/-- A sample admin caller. -/
def adminCaller : UserCtx := { id := 2, role := .admin }

/-- A sample telecaller caller. -/
def telecallerCaller (i : Nat) : UserCtx := { id := i, role := .telecaller }

/-- A concrete Call document used in sample stores. -/
def sampleCall (i : Nat) (st : CallStatus) : CallRec :=
  { id := i, lead := 1, user := 1, status := st, duration := 0,
    connectedResponse := none, notConnectedReason := none, notes := none,
    createdAt := 0 }

/-- A store with three calls, one of them connected, for evaluating the
dashboard statistics. -/
def statsStore : St :=
  { leads := [], users := [],
    calls := [sampleCall 1 .connected, sampleCall 2 .not_connected,
      sampleCall 3 .not_connected] }

/-- An update body that only carries a `createdBy` field. -/
def createdByOnlyBody (newOwner : Nat) : UpdateLeadBody :=
  { name := none, company := none, phone := none, email := none,
    address := none, source := none, status := none, notes := none,
    createdBy := some newOwner, lastModifiedBy := none }

/-- A list request with no filters and default pagination, carrying the
store-interpreted comparator `le`. -/
def plainListReq (le : Lead → Lead → Bool) : GetLeadsReq :=
  { status := none, source := none, le := le, page := none, limit := none }

/-!  Helper lemmas about id-guarded document updates. -/

theorem find_map_guard (I : Nat) (g : Lead → Lead)
    (hg : ∀ l : Lead, l.id = I → (g l).id = I) (ls : List Lead) :
    (ls.map fun l => if l.id = I then g l else l).find?
        (fun l => decide (l.id = I)) =
      (ls.find? (fun l => decide (l.id = I))).map g := by
  induction ls with
  | nil => rfl
  | cons a t ih =>
    by_cases h : a.id = I
    · simp [List.find?, h, hg a h]
    · simp [List.find?, h, ih]

theorem find_setLeadStatus (s : St) (I : Nat) (st : LeadStatus) :
    (setLeadStatus s I st).leads.find? (fun l => decide (l.id = I)) =
      (s.leads.find? (fun l => decide (l.id = I))).map
        (fun l => { l with status := st }) := by
  exact find_map_guard I (fun l => { l with status := st }) (fun l h => h) s.leads

theorem find_saveLead (s : St) (doc : Lead) (I : Nat) (hI : doc.id = I) :
    (saveLead s doc).leads.find? (fun l => decide (l.id = I)) =
      (s.leads.find? (fun l => decide (l.id = I))).map (fun _ => doc) := by
  have : (saveLead s doc).leads =
      s.leads.map fun l => if l.id = I then doc else l := by
    simp [saveLead, hI]
  rw [this]
  exact find_map_guard I (fun _ => doc) (fun _ _ => hI) s.leads

theorem find_save_after_set (s : St) (I : Nat) (st : LeadStatus) (doc : Lead)
    (hdoc : doc.id = I) :
    (saveLead (setLeadStatus s I st) doc).leads.find?
        (fun l => decide (l.id = I)) =
      (s.leads.find? (fun l => decide (l.id = I))).map (fun _ => doc) := by
  rw [find_saveLead _ _ I hdoc, find_setLeadStatus]
  cases s.leads.find? (fun l => decide (l.id = I)) <;> rfl

/-- The condition under which the connected branch of `createCall` performs
`lead.save()` (its computed `newStatus` differs from the stale status). -/
def connectedSaves (lead : Lead) (req : CreateCallReq) : Prop :=
  req.status = .connected ∧
    (lead.status = .new ∨
      (lead.status = .contacted ∧ req.connectedResponse = some .interested))

instance (lead : Lead) (req : CreateCallReq) : Decidable (connectedSaves lead req) := by
  unfold connectedSaves; infer_instance

/-- Master characterization of a successful `createCall`: the response is
201 with the built call document, the call is appended to the store, and
the stored lead document with the target id ends with status
`nextStatus lead.status req.status req.connectedResponse`; `lastModifiedBy`
is set to the caller exactly when the connected branch performed the
`lead.save()`. -/
theorem createCall_allOk (u : UserCtx) (req : CreateCallReq) (cid : Nat)
    (now : Int) (s : St) (lead : Lead)
    (hfind : s.leads.find? (fun l => decide (l.id = req.lead)) = some lead)
    (hauth : ¬(u.role = .telecaller ∧ lead.createdBy ≠ u.id)) :
    (createCall u req allOk cid now s).1 =
        .created (buildCallData u req cid now) ∧
    (createCall u req allOk cid now s).2.calls =
        s.calls ++ [buildCallData u req cid now] ∧
    (createCall u req allOk cid now s).2.leads.find?
        (fun l => decide (l.id = req.lead)) =
      some (if connectedSaves lead req then
              { lead with
                status := nextStatus lead.status req.status req.connectedResponse,
                lastModifiedBy := u.id }
            else if lead.status = .new then { lead with status := .contacted }
            else lead) := by
  have hL : lead.id = req.lead := by
    have h := List.find?_some hfind
    simpa using h
  by_cases h2 : req.status = CallStatus.connected
  · by_cases h3 : req.connectedResponse = some ConnectedResponse.interested
    · by_cases h1 : lead.status = LeadStatus.new
      · -- connected, interested, current new: phase-1 update then save to qualified
        have hcs : connectedSaves lead req := ⟨h2, Or.inl h1⟩
        have heq : createCall u req allOk cid now s =
            (.created (buildCallData u req cid now),
             saveLead (setLeadStatus
               { s with calls := s.calls ++ [buildCallData u req cid now] }
               req.lead .contacted)
               { lead with status := .qualified, lastModifiedBy := u.id }) := by
          unfold createCall
          rw [hfind]
          simp [hauth, h1, h2, h3, allOk]
        rw [heq]
        refine ⟨rfl, rfl, ?_⟩
        dsimp only
        rw [find_save_after_set _ req.lead .contacted
          { lead with status := .qualified, lastModifiedBy := u.id } hL]
        simp [hfind, hcs, nextStatus, h1, h2, h3]
      · by_cases h4 : lead.status = LeadStatus.contacted
        · -- connected, interested, current contacted: save to qualified
          have hcs : connectedSaves lead req := ⟨h2, Or.inr ⟨h4, h3⟩⟩
          have heq : createCall u req allOk cid now s =
              (.created (buildCallData u req cid now),
               saveLead
                 { s with calls := s.calls ++ [buildCallData u req cid now] }
                 { lead with status := .qualified, lastModifiedBy := u.id }) := by
            unfold createCall
            rw [hfind]
            simp [hauth, h1, h2, h3, h4, allOk]
          rw [heq]
          refine ⟨rfl, rfl, ?_⟩
          dsimp only
          rw [find_saveLead _
            { lead with status := .qualified, lastModifiedBy := u.id } req.lead hL]
          simp [hfind, hcs, nextStatus, h1, h2, h3, h4]
        · -- connected, interested, later stage: no status change
          have hncs : ¬ connectedSaves lead req := fun h =>
            h.2.elim h1 (fun hc => h4 hc.1)
          have heq : createCall u req allOk cid now s =
              (.created (buildCallData u req cid now),
               { s with calls := s.calls ++ [buildCallData u req cid now] }) := by
            unfold createCall
            rw [hfind]
            simp [hauth, h1, h2, h3, h4, allOk]
          rw [heq]
          exact ⟨rfl, rfl, by simp [hfind, hncs, h1]⟩
    · by_cases h1 : lead.status = LeadStatus.new
      · -- connected, not interested, current new: phase-1 update then save to contacted
        have hcs : connectedSaves lead req := ⟨h2, Or.inl h1⟩
        have heq : createCall u req allOk cid now s =
            (.created (buildCallData u req cid now),
             saveLead (setLeadStatus
               { s with calls := s.calls ++ [buildCallData u req cid now] }
               req.lead .contacted)
               { lead with status := .contacted, lastModifiedBy := u.id }) := by
          unfold createCall
          rw [hfind]
          simp [hauth, h1, h2, h3, allOk]
        rw [heq]
        refine ⟨rfl, rfl, ?_⟩
        dsimp only
        rw [find_save_after_set _ req.lead .contacted
          { lead with status := .contacted, lastModifiedBy := u.id } hL]
        simp [hfind, hcs, nextStatus, h1, h2, h3]
      · -- connected, not interested, not new: no status change
        have hncs : ¬ connectedSaves lead req := fun h =>
          h.2.elim h1 (fun hc => h3 hc.2)
        have heq : createCall u req allOk cid now s =
            (.created (buildCallData u req cid now),
             { s with calls := s.calls ++ [buildCallData u req cid now] }) := by
          unfold createCall
          rw [hfind]
          simp [hauth, h1, h2, h3, allOk]
        rw [heq]
        exact ⟨rfl, rfl, by simp [hfind, hncs, h1]⟩
  · by_cases h1 : lead.status = LeadStatus.new
    · -- not connected, current new: phase-1 status update only
      have hncs : ¬ connectedSaves lead req := fun h => h2 h.1
      have heq : createCall u req allOk cid now s =
          (.created (buildCallData u req cid now),
           setLeadStatus
             { s with calls := s.calls ++ [buildCallData u req cid now] }
             req.lead .contacted) := by
        unfold createCall
        rw [hfind]
        simp [hauth, h1, h2, allOk]
      rw [heq]
      refine ⟨rfl, rfl, ?_⟩
      dsimp only
      rw [find_setLeadStatus]
      simp [hfind, hncs, h1]
    · -- not connected, not new: store leads unchanged
      have hncs : ¬ connectedSaves lead req := fun h => h2 h.1
      have heq : createCall u req allOk cid now s =
          (.created (buildCallData u req cid now),
           { s with calls := s.calls ++ [buildCallData u req cid now] }) := by
        unfold createCall
        rw [hfind]
        simp [hauth, h1, h2, allOk]
      rw [heq]
      exact ⟨rfl, rfl, by simp [hfind, hncs, h1]⟩

/-- An authorization hypothesis of the form the spec uses (admin, or owner)
implies the controller's telecaller ownership check does not fire. -/
theorem auth_not_denied {u : UserCtx} {lead : Lead}
    (hauth : u.role = .admin ∨ lead.createdBy = u.id) :
    ¬(u.role = Role.telecaller ∧ lead.createdBy ≠ u.id) := by
  rintro ⟨hr, hc⟩
  rcases hauth with ha | ha
  · rw [ha] at hr
    exact Role.noConfusion hr
  · exact hc ha

/-- Whatever branch `createCall` takes, the Call collection afterwards is
either unchanged or the built call document appended. -/
theorem createCall_calls (u : UserCtx) (req : CreateCallReq) (fo : FailOracle)
    (cid : Nat) (now : Int) (s : St) :
    (createCall u req fo cid now s).2.calls = s.calls ∨
    (createCall u req fo cid now s).2.calls =
      s.calls ++ [buildCallData u req cid now] := by
  unfold createCall
  cases hfind : s.leads.find? (fun l => decide (l.id = req.lead)) with
  | none => exact Or.inl rfl
  | some lead =>
    dsimp only
    split
    · exact Or.inl rfl
    split
    · exact Or.inl rfl
    right
    repeat' split
    all_goals simp [saveLead, setLeadStatus]

/-- The call document built by `createCall` never carries a conditional
field mismatched to its status, and never carries both. -/
theorem buildCallData_fields (u : UserCtx) (req : CreateCallReq) (cid : Nat)
    (now : Int) :
    ((buildCallData u req cid now).connectedResponse.isSome →
      (buildCallData u req cid now).status = .connected) ∧
    ((buildCallData u req cid now).notConnectedReason.isSome →
      (buildCallData u req cid now).status = .not_connected) ∧
    ¬((buildCallData u req cid now).connectedResponse.isSome ∧
      (buildCallData u req cid now).notConnectedReason.isSome) := by
  unfold buildCallData
  by_cases hc : req.status = CallStatus.connected ∧ req.connectedResponse.isSome
  · simp [hc, hc.1]
  · by_cases hn : req.status = CallStatus.not_connected ∧
        req.notConnectedReason.isSome
    · simp [hc, hn, hn.1]
    · simp [hc, hn]

/-- C1: recording a call (`createCall`) against an existing, authorized
lead advances a `new` lead to `contacted` for any call outcome, except
that a connected call with response `interested` against a `new` or
`contacted` lead advances it to `qualified` (the higher-value transition
supersedes the new-to-contacted rule). -/
theorem C1_call_advances_lead_status (u : UserCtx) (req : CreateCallReq)
    (cid : Nat) (now : Int) (s : St) (lead : Lead)
    (hfind : s.leads.find? (fun l => decide (l.id = req.lead)) = some lead)
    (hauth : u.role = .admin ∨ lead.createdBy = u.id) :
    (lead.status = .new →
      ∃ l', (createCall u req allOk cid now s).2.leads.find?
          (fun l => decide (l.id = req.lead)) = some l' ∧
        l'.status = (if req.status = .connected ∧
            req.connectedResponse = some .interested then .qualified
          else .contacted)) ∧
    ((lead.status = .new ∨ lead.status = .contacted) →
      req.status = .connected → req.connectedResponse = some .interested →
      ∃ l', (createCall u req allOk cid now s).2.leads.find?
          (fun l => decide (l.id = req.lead)) = some l' ∧
        l'.status = .qualified) := by
  obtain ⟨-, -, hlead⟩ :=
    createCall_allOk u req cid now s lead hfind (auth_not_denied hauth)
  constructor
  · intro h1
    refine ⟨_, hlead, ?_⟩
    by_cases h2 : req.status = CallStatus.connected
    · by_cases h3 : req.connectedResponse = some ConnectedResponse.interested
      · simp [connectedSaves, nextStatus, h1, h2, h3]
      · simp [connectedSaves, nextStatus, h1, h2, h3]
    · simp [connectedSaves, nextStatus, h1, h2]
  · intro hor h2 h3
    refine ⟨_, hlead, ?_⟩
    rcases hor with h1 | h1 <;> simp [connectedSaves, nextStatus, h1, h2, h3]

theorem C1_witness :
    ((sampleLead .new 1).status = .new →
      ∃ l', (createCall adminCaller interestedReq allOk 7 0
          (sampleStore .new 1)).2.leads.find?
          (fun l => decide (l.id = interestedReq.lead)) = some l' ∧
        l'.status = (if interestedReq.status = .connected ∧
            interestedReq.connectedResponse = some .interested then .qualified
          else .contacted)) ∧
    (((sampleLead .new 1).status = .new ∨
        (sampleLead .new 1).status = .contacted) →
      interestedReq.status = .connected →
      interestedReq.connectedResponse = some .interested →
      ∃ l', (createCall adminCaller interestedReq allOk 7 0
          (sampleStore .new 1)).2.leads.find?
          (fun l => decide (l.id = interestedReq.lead)) = some l' ∧
        l'.status = .qualified) :=
  C1_call_advances_lead_status adminCaller interestedReq 7 0
    (sampleStore .new 1) (sampleLead .new 1) (by decide) (Or.inl rfl)

/-- C2: the transition logic realised by `createCall` is total and closed
over the six-status enumeration, never regresses a status to an earlier
stage, and is the identity on the terminal statuses `lost` and
`converted`. -/
theorem C2_nextStatus_total_terminal_no_regress :
    (∀ (current : LeadStatus) (st : CallStatus)
        (cr : Option ConnectedResponse),
      nextStatus current st cr ∈
        [LeadStatus.new, .contacted, .qualified, .proposal, .converted,
          .lost]) ∧
    (∀ (current : LeadStatus) (st : CallStatus)
        (cr : Option ConnectedResponse),
      stageRank current ≤ stageRank (nextStatus current st cr)) ∧
    (∀ (st : CallStatus) (cr : Option ConnectedResponse),
      nextStatus .lost st cr = .lost) ∧
    (∀ (st : CallStatus) (cr : Option ConnectedResponse),
      nextStatus .converted st cr = .converted) := by
  refine ⟨?_, ?_, ?_, ?_⟩ <;> decide

/-- C3 counterexample: an admin (id 2) records a not-connected call against
a `new` lead created and last modified by user 1; the persisted lead's
status changes to `contacted` but its `lastModifiedBy` stays 1, not the
caller's id 2 — refuting the claim that every status change persists
`lastModifiedBy = callerId`. -/
theorem C3_counterexample :
    ((sampleStore .new 1).leads.find? (fun l => decide (l.id = 1))).map
        (fun l => l.status) = some LeadStatus.new ∧
    ((createCall adminCaller notConnectedReq allOk 7 0
        (sampleStore .new 1)).2.leads.find?
        (fun l => decide (l.id = 1))).map
        (fun l => (l.status, l.lastModifiedBy)) =
      some (LeadStatus.contacted, 1) ∧
    adminCaller.id = 2 := by decide

/-- C3 (amended): when the connected branch of `createCall` changes the
status (connected call, current `new`, or current `contacted` with response
`interested`), the persisted lead carries the new status and
`lastModifiedBy = callerId`; but the new-to-contacted update performed for
a not-connected call writes only the status and leaves `lastModifiedBy`
unchanged. -/
theorem C3_amended_lastModifiedBy (u : UserCtx) (req : CreateCallReq)
    (cid : Nat) (now : Int) (s : St) (lead : Lead)
    (hfind : s.leads.find? (fun l => decide (l.id = req.lead)) = some lead)
    (hauth : u.role = .admin ∨ lead.createdBy = u.id) :
    (connectedSaves lead req →
      ∃ l', (createCall u req allOk cid now s).2.leads.find?
          (fun l => decide (l.id = req.lead)) = some l' ∧
        l'.status = nextStatus lead.status req.status req.connectedResponse ∧
        l'.lastModifiedBy = u.id) ∧
    (req.status = .not_connected → lead.status = .new →
      ∃ l', (createCall u req allOk cid now s).2.leads.find?
          (fun l => decide (l.id = req.lead)) = some l' ∧
        l'.status = .contacted ∧
        l'.lastModifiedBy = lead.lastModifiedBy) := by
  obtain ⟨-, -, hlead⟩ :=
    createCall_allOk u req cid now s lead hfind (auth_not_denied hauth)
  constructor
  · intro hcs
    refine ⟨_, hlead, ?_, ?_⟩ <;> simp [hcs]
  · intro h2 h1
    have hncs : ¬ connectedSaves lead req := by
      intro h
      have hc := h.1
      rw [h2] at hc
      exact CallStatus.noConfusion hc
    refine ⟨_, hlead, ?_, ?_⟩ <;> simp [hncs, h1]

theorem C3_amended_witness :
    (connectedSaves (sampleLead .contacted 1) interestedReq →
      ∃ l', (createCall (telecallerCaller 1) interestedReq allOk 7 0
          (sampleStore .contacted 1)).2.leads.find?
          (fun l => decide (l.id = interestedReq.lead)) = some l' ∧
        l'.status = nextStatus (sampleLead .contacted 1).status
          interestedReq.status interestedReq.connectedResponse ∧
        l'.lastModifiedBy = (telecallerCaller 1).id) ∧
    (interestedReq.status = .not_connected →
      (sampleLead .contacted 1).status = .new →
      ∃ l', (createCall (telecallerCaller 1) interestedReq allOk 7 0
          (sampleStore .contacted 1)).2.leads.find?
          (fun l => decide (l.id = interestedReq.lead)) = some l' ∧
        l'.status = .contacted ∧
        l'.lastModifiedBy = (sampleLead .contacted 1).lastModifiedBy) :=
  C3_amended_lastModifiedBy (telecallerCaller 1) interestedReq 7 0
    (sampleStore .contacted 1) (sampleLead .contacted 1) (by decide)
    (Or.inr rfl)

/-- C6: a telecaller creating a Call against a lead created by a different
user receives Forbidden (403) and the store is completely unchanged — no
Call is persisted and no lead is modified — under every failure oracle. -/
theorem C6_forbidden_store_unchanged (u : UserCtx) (req : CreateCallReq)
    (fo : FailOracle) (cid : Nat) (now : Int) (s : St) (lead : Lead)
    (hfind : s.leads.find? (fun l => decide (l.id = req.lead)) = some lead)
    (hrole : u.role = .telecaller) (hown : lead.createdBy ≠ u.id) :
    createCall u req fo cid now s = (.forbidden, s) := by
  unfold createCall
  rw [hfind]
  simp [hrole, hown]

theorem C6_witness :
    createCall (telecallerCaller 9) interestedReq allOk 7 0
        (sampleStore .new 1) =
      (.forbidden, sampleStore .new 1) :=
  C6_forbidden_store_unchanged (telecallerCaller 9) interestedReq allOk 7 0
    (sampleStore .new 1) (sampleLead .new 1) (by decide) rfl (by decide)

/-- C7 counterexample: the call is persisted, the subsequent
`Lead.findByIdAndUpdate` fails, and `createCall` responds with the generic
server error — not success — refuting the claim that the create-call
response still reports success after a lead-status-update failure. -/
theorem C7_counterexample :
    (createCall adminCaller notConnectedReq ⟨true, false, true⟩ 7 0
        (sampleStore .new 1)).1 = .serverError ∧
    (createCall adminCaller notConnectedReq ⟨true, false, true⟩ 7 0
        (sampleStore .new 1)).2.calls =
      [buildCallData adminCaller notConnectedReq 7 0] := by
  exact ⟨rfl, rfl⟩

/-- C7 (amended): if the Call has been persisted and the subsequent lead
status mutation fails (either the `findByIdAndUpdate` on the new-lead path
or the `lead.save()` of the connected branch), the Call is not rolled back
— it remains appended to the store — but the response is the generic 500
server error, not success. -/
theorem C7_amended_partial_failure (u : UserCtx) (req : CreateCallReq)
    (b : Bool) (cid : Nat) (now : Int) (s : St) (lead : Lead)
    (hfind : s.leads.find? (fun l => decide (l.id = req.lead)) = some lead)
    (hauth : u.role = .admin ∨ lead.createdBy = u.id) :
    (lead.status = .new →
      createCall u req ⟨true, false, b⟩ cid now s =
        (.serverError,
         { s with calls := s.calls ++ [buildCallData u req cid now] })) ∧
    (connectedSaves lead req →
      (createCall u req ⟨true, true, false⟩ cid now s).1 = .serverError ∧
      (createCall u req ⟨true, true, false⟩ cid now s).2.calls =
        s.calls ++ [buildCallData u req cid now]) := by
  have hnauth := auth_not_denied hauth
  constructor
  · intro h1
    unfold createCall
    rw [hfind]
    simp [hnauth, h1]
  · rintro ⟨h2, hor⟩
    have hsplit :
        (createCall u req ⟨true, true, false⟩ cid now s).1 = .serverError ∧
        (createCall u req ⟨true, true, false⟩ cid now s).2.calls =
          s.calls ++ [buildCallData u req cid now] := by
      rcases hor with h1 | ⟨h1, h3⟩
      · by_cases h3 : req.connectedResponse = some ConnectedResponse.interested
        · have heq : createCall u req ⟨true, true, false⟩ cid now s =
              (.serverError,
               setLeadStatus
                 { s with calls := s.calls ++ [buildCallData u req cid now] }
                 req.lead .contacted) := by
            unfold createCall
            rw [hfind]
            simp [hnauth, h1, h2, h3]
          rw [heq]
          exact ⟨rfl, rfl⟩
        · have heq : createCall u req ⟨true, true, false⟩ cid now s =
              (.serverError,
               setLeadStatus
                 { s with calls := s.calls ++ [buildCallData u req cid now] }
                 req.lead .contacted) := by
            unfold createCall
            rw [hfind]
            simp [hnauth, h1, h2, h3]
          rw [heq]
          exact ⟨rfl, rfl⟩
      · have heq : createCall u req ⟨true, true, false⟩ cid now s =
            (.serverError,
             { s with calls := s.calls ++ [buildCallData u req cid now] }) := by
          unfold createCall
          rw [hfind]
          simp [hnauth, h1, h2, h3]
        rw [heq]
        exact ⟨rfl, rfl⟩
    exact hsplit

theorem C7_amended_witness :
    ((sampleLead .new 1).status = .new →
      createCall adminCaller notConnectedReq ⟨true, false, true⟩ 7 0
          (sampleStore .new 1) =
        (.serverError,
         { sampleStore .new 1 with
           calls := (sampleStore .new 1).calls ++
             [buildCallData adminCaller notConnectedReq 7 0] })) ∧
    (connectedSaves (sampleLead .new 1) notConnectedReq →
      (createCall adminCaller notConnectedReq ⟨true, true, false⟩ 7 0
          (sampleStore .new 1)).1 = .serverError ∧
      (createCall adminCaller notConnectedReq ⟨true, true, false⟩ 7 0
          (sampleStore .new 1)).2.calls =
        (sampleStore .new 1).calls ++
          [buildCallData adminCaller notConnectedReq 7 0]) :=
  C7_amended_partial_failure adminCaller notConnectedReq true 7 0
    (sampleStore .new 1) (sampleLead .new 1) (by decide) (Or.inl rfl)

/-- C10: every Call present after `createCall` was either already in the
store or satisfies the conditional-field invariant: `connectedResponse`
only on `connected` calls, `notConnectedReason` only on `not_connected`
calls, and never both. -/
theorem C10_conditional_fields (u : UserCtx) (req : CreateCallReq)
    (fo : FailOracle) (cid : Nat) (now : Int) (s : St) :
    ∀ c ∈ (createCall u req fo cid now s).2.calls, c ∈ s.calls ∨
      ((c.connectedResponse.isSome → c.status = .connected) ∧
       (c.notConnectedReason.isSome → c.status = .not_connected) ∧
       ¬(c.connectedResponse.isSome ∧ c.notConnectedReason.isSome)) := by
  intro c hc
  rcases createCall_calls u req fo cid now s with h | h
  · rw [h] at hc
    exact Or.inl hc
  · rw [h] at hc
    rcases List.mem_append.1 hc with hc | hc
    · exact Or.inl hc
    · right
      have hceq : c = buildCallData u req cid now := by simpa using hc
      rw [hceq]
      exact buildCallData_fields u req cid now

theorem C10_witness :
    buildCallData adminCaller interestedReq 7 0 ∈ (sampleStore .new 1).calls ∨
    (((buildCallData adminCaller interestedReq 7 0).connectedResponse.isSome →
        (buildCallData adminCaller interestedReq 7 0).status = .connected) ∧
      ((buildCallData adminCaller interestedReq 7 0).notConnectedReason.isSome →
        (buildCallData adminCaller interestedReq 7 0).status =
          .not_connected) ∧
      ¬((buildCallData adminCaller interestedReq 7 0).connectedResponse.isSome ∧
        (buildCallData adminCaller interestedReq 7 0).notConnectedReason.isSome)) :=
  C10_conditional_fields adminCaller interestedReq allOk 7 0
    (sampleStore .new 1) (buildCallData adminCaller interestedReq 7 0)
    (by decide)

/-- Value of the gap-filled trend bucket of a day: its date key, the count
of scope-matching calls created that day, and the count of those that were
connected. -/
theorem trendFound_spec (calls : List CallRec) (d : Int) :
    (trendFound calls d).getD { date := d, count := 0, connected := 0 } =
      { date := d,
        count := (calls.filter (fun c => decide (c.createdAt = d))).length,
        connected := ((calls.filter (fun c => decide (c.createdAt = d))).filter
          (fun c => decide (c.status = .connected))).length } := by
  simp only [trendFound]
  split
  · next h =>
    rw [List.isEmpty_iff] at h
    simp [h]
  · rfl

/-- C4 evaluated at the failing input: the owning telecaller (user 1)
updates their lead with a body containing only `createdBy: 2`; the
persisted lead's `createdBy` becomes 2 although it was 1 before the
operation — `updateLead` does not keep `createdBy` immutable. -/
theorem C4_createdBy_overwritten :
    (sampleStore .new 1).leads.map (fun l => l.createdBy) = [1] ∧
    (updateLead (telecallerCaller 1) 1 (createdByOnlyBody 2)
        (sampleStore .new 1)).2.leads.map (fun l => l.createdBy) = [2] := by
  exact ⟨rfl, rfl⟩

/-- C5: `getLeads` never returns a telecaller a lead created by a different
user, whatever filters, comparator and pagination the request carries; and
an admin requesting the list with no filters and default pagination (on a
store within the default page size) receives every lead. -/
theorem C5_getLeads_role_scoping :
    (∀ (u : UserCtx) (req : GetLeadsReq) (s : St), u.role = .telecaller →
      ∀ l ∈ getLeads u req s, l.createdBy = u.id) ∧
    (∀ (u : UserCtx) (le : Lead → Lead → Bool) (s : St), u.role = .admin →
      s.leads.length ≤ 100 →
      ∀ l ∈ s.leads, l ∈ getLeads u (plainListReq le) s) := by
  constructor
  · intro u req s hrole l hl
    simp only [getLeads] at hl
    have h1 : l ∈ (s.leads.filter (leadsQuery u req)).mergeSort req.le :=
      List.drop_subset _ _ (List.take_subset _ _ hl)
    have h2 : l ∈ s.leads.filter (leadsQuery u req) :=
      List.mem_mergeSort.1 h1
    have h3 : leadsQuery u req l = true := (List.mem_filter.1 h2).2
    simp only [leadsQuery, hrole, if_pos, Bool.and_eq_true,
      decide_eq_true_eq] at h3
    exact h3.2
  · intro u le s hrole hlen l hl
    simp only [getLeads, plainListReq, jsNumOr]
    have hq : s.leads.filter
        (leadsQuery u
          { status := none, source := none, le := le, page := none,
            limit := none }) = s.leads := by
      rw [List.filter_eq_self]
      intro a _
      simp [leadsQuery, hrole]
    rw [hq]
    have hlen' : (s.leads.mergeSort le).length ≤ 100 := by
      rw [List.length_mergeSort]
      exact hlen
    simp only [Nat.sub_self, Nat.zero_mul, List.drop_zero]
    rw [List.take_of_length_le hlen']
    exact List.mem_mergeSort.2 hl

theorem C5_witness :
    (sampleLead .new 3).createdBy = (telecallerCaller 3).id ∧
    sampleLead .new 1 ∈
      getLeads adminCaller (plainListReq fun _ _ => true)
        (sampleStore .new 1) :=
  ⟨C5_getLeads_role_scoping.1 (telecallerCaller 3)
      (plainListReq fun _ _ => true) (sampleStore .new 3) rfl
      (sampleLead .new 3)
      (by
        simp only [getLeads, plainListReq, jsNumOr]
        simp only [Nat.sub_self, Nat.zero_mul, List.drop_zero]
        rw [List.take_of_length_le (by
          rw [List.length_mergeSort]
          exact le_trans (List.length_filter_le _ _) (by simp [sampleStore]))]
        exact List.mem_mergeSort.2 (by decide)),
    C5_getLeads_role_scoping.2 adminCaller (fun _ _ => true)
      (sampleStore .new 1) rfl (by decide) (sampleLead .new 1)
      (by decide)⟩

/-- C8: for every requested window of `days ≥ 1` and every store content,
`getCallTrends` returns exactly `days` buckets covering
`[today - days + 1, today]`: the `i`-th bucket's date is
`today - days + 1 + i` (so the dates are strictly increasing), each bucket
carries the total and connected call counts of its day, and a day with no
matching calls appears as a synthesized zero-valued bucket. -/
theorem C8_daily_trend_buckets (u : UserCtx) (dp : Option Nat) (today : Int)
    (s : St) (days : Nat) (hdays : days = jsNumOr dp 7) (hpos : 1 ≤ days) :
    (getCallTrends u dp today s).length = days ∧
    (∀ i (h : i < (getCallTrends u dp today s).length),
      ((getCallTrends u dp today s).get ⟨i, h⟩) =
        { date := today - days + 1 + i,
          count := ((s.calls.filter
              (trendMatch u (today - days + 1) today)).filter
            (fun c => decide (c.createdAt = today - days + 1 + i))).length,
          connected := (((s.calls.filter
              (trendMatch u (today - days + 1) today)).filter
            (fun c => decide (c.createdAt = today - days + 1 + i))).filter
            (fun c => decide (c.status = .connected))).length }) ∧
    List.Pairwise (fun a b => a.date < b.date) (getCallTrends u dp today s) ∧
    (∀ i (h : i < (getCallTrends u dp today s).length),
      (∀ c ∈ s.calls, trendMatch u (today - days + 1) today c = true →
        c.createdAt ≠ today - days + 1 + i) →
      ((getCallTrends u dp today s).get ⟨i, h⟩) =
        { date := today - days + 1 + i, count := 0, connected := 0 }) := by
  subst hdays
  have hlen : (getCallTrends u dp today s).length = jsNumOr dp 7 := by
    simp [getCallTrends]
  have hget : ∀ i (h : i < (getCallTrends u dp today s).length),
      ((getCallTrends u dp today s).get ⟨i, h⟩) =
        { date := today - jsNumOr dp 7 + 1 + i,
          count := ((s.calls.filter
              (trendMatch u (today - jsNumOr dp 7 + 1) today)).filter
            (fun c => decide
              (c.createdAt = today - jsNumOr dp 7 + 1 + i))).length,
          connected := (((s.calls.filter
              (trendMatch u (today - jsNumOr dp 7 + 1) today)).filter
            (fun c => decide
              (c.createdAt = today - jsNumOr dp 7 + 1 + i))).filter
            (fun c => decide (c.status = .connected))).length } := by
    intro i h
    simp only [getCallTrends, List.get_eq_getElem, List.getElem_map,
      List.getElem_range]
    exact trendFound_spec _ _
  refine ⟨hlen, hget, ?_, ?_⟩
  · rw [List.pairwise_iff_getElem]
    intro i j hi hj hij
    have h1 := hget i hi
    have h2 := hget j hj
    rw [List.get_eq_getElem] at h1 h2
    simp only [h1, h2]
    show today - (jsNumOr dp 7 : Int) + 1 + i <
      today - (jsNumOr dp 7 : Int) + 1 + j
    omega
  · intro i h hempty
    rw [hget i h]
    have hnil : (s.calls.filter
        (trendMatch u (today - jsNumOr dp 7 + 1) today)).filter
        (fun c => decide
          (c.createdAt = today - jsNumOr dp 7 + 1 + i)) = [] := by
      rw [List.filter_eq_nil_iff]
      intro c hc
      have hmem := List.mem_filter.1 hc
      simp only [decide_eq_true_eq]
      exact hempty c hmem.1 hmem.2
    rw [hnil]
    rfl

theorem C8_witness :
    (getCallTrends adminCaller none 0 statsStore).length = 7 ∧
    (∀ i (h : i < (getCallTrends adminCaller none 0 statsStore).length),
      ((getCallTrends adminCaller none 0 statsStore).get ⟨i, h⟩) =
        { date := (0 : Int) - (7 : Nat) + 1 + (i : Int),
          count := ((statsStore.calls.filter
              (trendMatch adminCaller ((0 : Int) - (7 : Nat) + 1) 0)).filter
            (fun c => decide
              (c.createdAt = (0 : Int) - (7 : Nat) + 1 + (i : Int)))).length,
          connected := (((statsStore.calls.filter
              (trendMatch adminCaller ((0 : Int) - (7 : Nat) + 1) 0)).filter
            (fun c => decide
              (c.createdAt = (0 : Int) - (7 : Nat) + 1 + (i : Int)))).filter
            (fun c => decide (c.status = .connected))).length }) ∧
    List.Pairwise (fun a b => a.date < b.date)
      (getCallTrends adminCaller none 0 statsStore) ∧
    (∀ i (h : i < (getCallTrends adminCaller none 0 statsStore).length),
      (∀ c ∈ statsStore.calls,
        trendMatch adminCaller ((0 : Int) - (7 : Nat) + 1) 0 c = true →
        c.createdAt ≠ (0 : Int) - (7 : Nat) + 1 + (i : Int)) →
      ((getCallTrends adminCaller none 0 statsStore).get ⟨i, h⟩) =
        { date := (0 : Int) - (7 : Nat) + 1 + (i : Int), count := 0,
          connected := 0 }) :=
  C8_daily_trend_buckets adminCaller none 0 statsStore 7 rfl (by decide)

/-- C9: `getDashboardStats` renders `connectionRate` as the percentage
`connectedCalls / totalCalls * 100` rounded to two decimal places (ECMA
`toFixed(2)` rounding: the count of hundredths nearest to the value, ties
toward the larger) followed by a percent sign, and returns exactly `"0%"`
when `totalCalls = 0` — the zero denominator is guarded, not an error. -/
theorem C9_connection_rate (u : UserCtx) (s : St) :
    ((getDashboardStats u s).totalCalls = 0 →
      (getDashboardStats u s).connectionRate = "0%") ∧
    ((getDashboardStats u s).totalCalls ≠ 0 →
      ∃ n : Nat,
        (getDashboardStats u s).connectionRate = fmtHundredths n ++ "%" ∧
        (n : ℚ) ≤ ((getDashboardStats u s).connectedCalls : ℚ) /
            ((getDashboardStats u s).totalCalls : ℚ) * 100 * 100 + 1 / 2 ∧
        ((getDashboardStats u s).connectedCalls : ℚ) /
            ((getDashboardStats u s).totalCalls : ℚ) * 100 * 100 + 1 / 2 <
          (n : ℚ) + 1) := by
  constructor
  · intro h
    simp only [getDashboardStats] at h ⊢
    exact if_neg (fun hne => hne h)
  · intro h
    simp only [getDashboardStats] at h ⊢
    rw [if_pos h]
    set C : ℚ := ((s.calls.filter fun c =>
      (if u.role = .telecaller then decide (c.user = u.id) else true) &&
        decide (c.status = CallStatus.connected)).length : ℚ) with hC
    set T : ℚ := ((s.calls.filter fun c =>
      if u.role = .telecaller then decide (c.user = u.id) else true).length :
        ℚ) with hT
    have h0 : (0 : ℚ) ≤ C / T := by
      apply div_nonneg
      · rw [hC]; positivity
      · rw [hT]; positivity
    have hy : (0 : ℚ) ≤ C / T * 100 * 100 + 1 / 2 := by linarith
    have hfl : (0 : ℤ) ≤ ⌊C / T * 100 * 100 + 1 / 2⌋ := Int.floor_nonneg.2 hy
    have hcast : ((⌊C / T * 100 * 100 + 1 / 2⌋.toNat : ℕ) : ℚ) =
        ((⌊C / T * 100 * 100 + 1 / 2⌋ : ℤ) : ℚ) := by
      rw [← Int.cast_natCast (R := ℚ), Int.toNat_of_nonneg hfl]
    refine ⟨(⌊C / T * 100 * 100 + 1 / 2⌋).toNat, ?_, ?_, ?_⟩
    · unfold toFixed2
      rfl
    · rw [hcast]
      exact Int.floor_le _
    · rw [hcast]
      exact Int.lt_floor_add_one _

theorem C9_witness :
    ∃ n : Nat,
      (getDashboardStats adminCaller statsStore).connectionRate =
        fmtHundredths n ++ "%" ∧
      (n : ℚ) ≤
        ((getDashboardStats adminCaller statsStore).connectedCalls : ℚ) /
          ((getDashboardStats adminCaller statsStore).totalCalls : ℚ) *
          100 * 100 + 1 / 2 ∧
      ((getDashboardStats adminCaller statsStore).connectedCalls : ℚ) /
          ((getDashboardStats adminCaller statsStore).totalCalls : ℚ) *
          100 * 100 + 1 / 2 <
        (n : ℚ) + 1 :=
  (C9_connection_rate adminCaller statsStore).2 (by decide)
